import Mathlib

/-!
Shallow embedding of src/examples/python-issues.py.

Modelling conventions:
- Python numbers are modelled as rationals.
- A Python dict with string keys is an association list; subscripting a
  dict is `dictGet`, returning `none` exactly when the key is absent
  (the situation in which Python raises KeyError).
- Functions whose body can raise on a missing key return `Option`;
  `none` models an uncaught exception.
- A `for` loop with an accumulator is structural recursion over the list,
  threading the accumulator.
- The truthiness tests of `process_order` on its first five used
  arguments are modelled by taking those arguments as `Bool`, the
  truthiness of the corresponding Python value; the remaining unused
  parameters are kept as parameters of the embedding.
- `print` output is modelled by threading the list of printed lines.
-/

/-- A Python dict with string keys, as an association list. -/
abbrev Dict (α : Type) : Type := List (String × α)

/-- Python dict subscript: `d[k]` yields the value, or `none` (KeyError). -/
def dictGet {α : Type} (d : Dict α) (k : String) : Option α :=
  List.lookup k d

/-- Embedding of `calculate_discount` (lines 7-13). -/
def calculate_discount (price : ℚ) : ℚ :=
  if price > 100 then price * 0.15
  else if price > 50 then price * 0.10
  else price * 0.05

/-- Loop of `calculate_total_a` (lines 33-37): `for item in items: total += ...`. -/
def calcTotalLoopA (items : List (Dict ℚ)) (total : ℚ) : Option ℚ :=
  match items with
  | [] => some total
  | item :: rest =>
    match dictGet item "price" with
    | none => none
    | some p =>
      match dictGet item "quantity" with
      | none => none
      | some q => calcTotalLoopA rest (total + p * q)

/-- Embedding of `calculate_total_a` (lines 33-37). -/
def calculate_total_a (items : List (Dict ℚ)) : Option ℚ :=
  calcTotalLoopA items 0

/-- Loop of `calculate_total_b` (lines 39-43), textually identical to the loop
of `calculate_total_a`. -/
def calcTotalLoopB (items : List (Dict ℚ)) (total : ℚ) : Option ℚ :=
  match items with
  | [] => some total
  | item :: rest =>
    match dictGet item "price" with
    | none => none
    | some p =>
      match dictGet item "quantity" with
      | none => none
      | some q => calcTotalLoopB rest (total + p * q)

/-- Embedding of `calculate_total_b` (lines 39-43). -/
def calculate_total_b (items : List (Dict ℚ)) : Option ℚ :=
  calcTotalLoopB items 0

/-- Embedding of `do_work` (lines 46-50). -/
def do_work (x y z : ℚ) : ℚ :=
  let temp := x + y
  let data := temp * z
  let val := data / 2
  val

/-- Inner loop of `process_order`: `for variation in item[...]`, printing
"Expensive item" when the variation price exceeds 100. `out` is the list of
lines printed so far. -/
def poVariationsLoop (vars : List (Dict ℚ)) (out : List String) :
    Option (List String) :=
  match vars with
  | [] => some out
  | v :: rest =>
    match dictGet v "price" with
    | none => none
    | some p =>
      poVariationsLoop rest (if p > 100 then out ++ ["Expensive item"] else out)

/-- Outer loop of `process_order`: `for item in items`. -/
def poItemsLoop (items : List (Dict (List (Dict ℚ)))) (out : List String) :
    Option (List String) :=
  match items with
  | [] => some out
  | item :: rest =>
    match dictGet item "variations" with
    | none => none
    | some vars =>
      match poVariationsLoop vars out with
      | none => none
      | some out2 => poItemsLoop rest out2

/-- Embedding of `process_order` (lines 16-30). Returns the printed lines and
the returned Boolean, or `none` when a dict subscript raises. -/
def process_order (order_id customer_name email phone address : Bool)
    (city state zip_code : String)
    (items : List (Dict (List (Dict ℚ))))
    (payment_method shipping_method : String) :
    Option (List String × Bool) :=
  let out := ["Processing order..."]
  let afterNest : Option (List String) :=
    if order_id then
      if customer_name then
        if email then
          if phone then
            if address then poItemsLoop items out
            else some out
          else some out
        else some out
      else some out
    else some out
  match afterNest with
  | none => none
  | some out2 => some (out2, true)

/-- Instance state of the `OrderManager` class (lines 53-74): the attribute
dictionary of a Python object. No method of the class ever touches it. -/
structure OrderManager : Type where
  attrs : Dict ℚ

namespace OrderManager

/-- `create_order(self): pass` -/
def create_order (self : OrderManager) : OrderManager × Option Unit := (self, none)

/-- `update_order(self): pass` -/
def update_order (self : OrderManager) : OrderManager × Option Unit := (self, none)

/-- `delete_order(self): pass` -/
def delete_order (self : OrderManager) : OrderManager × Option Unit := (self, none)

/-- `validate_order(self): pass` -/
def validate_order (self : OrderManager) : OrderManager × Option Unit := (self, none)

/-- `calculate_total(self): pass` -/
def calculate_total (self : OrderManager) : OrderManager × Option Unit := (self, none)

/-- `apply_discount(self): pass` -/
def apply_discount (self : OrderManager) : OrderManager × Option Unit := (self, none)

/-- `process_payment(self): pass` -/
def process_payment (self : OrderManager) : OrderManager × Option Unit := (self, none)

/-- `send_email(self): pass` -/
def send_email (self : OrderManager) : OrderManager × Option Unit := (self, none)

/-- `send_sms(self): pass` -/
def send_sms (self : OrderManager) : OrderManager × Option Unit := (self, none)

/-- `log_activity(self): pass` -/
def log_activity (self : OrderManager) : OrderManager × Option Unit := (self, none)

/-- `generate_invoice(self): pass` -/
def generate_invoice (self : OrderManager) : OrderManager × Option Unit := (self, none)

/-- `print_receipt(self): pass` -/
def print_receipt (self : OrderManager) : OrderManager × Option Unit := (self, none)

/-- `update_inventory(self): pass` -/
def update_inventory (self : OrderManager) : OrderManager × Option Unit := (self, none)

/-- `check_stock(self): pass` -/
def check_stock (self : OrderManager) : OrderManager × Option Unit := (self, none)

/-- `calculate_shipping(self): pass` -/
def calculate_shipping (self : OrderManager) : OrderManager × Option Unit := (self, none)

/-- `track_shipment(self): pass` -/
def track_shipment (self : OrderManager) : OrderManager × Option Unit := (self, none)

/-- `handle_returns(self): pass` -/
def handle_returns (self : OrderManager) : OrderManager × Option Unit := (self, none)

/-- `process_refund(self): pass` -/
def process_refund (self : OrderManager) : OrderManager × Option Unit := (self, none)

/-- `generate_report(self): pass` -/
def generate_report (self : OrderManager) : OrderManager × Option Unit := (self, none)

/-- `export_data(self): pass` -/
def export_data (self : OrderManager) : OrderManager × Option Unit := (self, none)

/-- `import_data(self): pass` -/
def import_data (self : OrderManager) : OrderManager × Option Unit := (self, none)

end OrderManager

/-- The value `item["price"] * item["quantity"]` of an item whose dict has
both keys (`getD 0` is only a device to name the looked-up values; the
theorems using it assume both keys are present). -/
def itemVal (i : Dict ℚ) : ℚ :=
  ((dictGet i "price").getD 0) * ((dictGet i "quantity").getD 0)

/-- An item dict has the two keys read by the total-calculation loops. -/
def hasTotalKeys (i : Dict ℚ) : Prop :=
  (dictGet i "price").isSome = true ∧ (dictGet i "quantity").isSome = true

instance hasTotalKeysDecidable (i : Dict ℚ) : Decidable (hasTotalKeys i) :=
  inferInstanceAs (Decidable (_ ∧ _))

/-- An order item is well formed for `process_order`: its "variations" key is
present and every variation dict has a "price" key. -/
def wellFormedOrderItem (i : Dict (List (Dict ℚ))) : Prop :=
  ∃ vars, dictGet i "variations" = some vars ∧
    ∀ v ∈ vars, (dictGet v "price").isSome = true

section Lemmas

/-- The two textually identical loops agree on every list and accumulator. -/
lemma calcTotalLoopA_eq_B (items : List (Dict ℚ)) :
    ∀ total, calcTotalLoopA items total = calcTotalLoopB items total := by
  induction items with
  | nil => intro total; rfl
  | cons item rest ih =>
    intro total
    simp only [calcTotalLoopA, calcTotalLoopB]
    cases dictGet item "price" with
    | none => rfl
    | some p =>
      cases dictGet item "quantity" with
      | none => rfl
      | some q => exact ih _

/-- When every item has both keys, the total loop adds the sum of the item
values to the accumulator. -/
lemma calcTotalLoopA_sum (items : List (Dict ℚ))
    (h : ∀ i ∈ items, hasTotalKeys i) :
    ∀ total, calcTotalLoopA items total = some (total + (items.map itemVal).sum) := by
  induction items with
  | nil => intro total; simp [calcTotalLoopA]
  | cons item rest ih =>
    intro total
    obtain ⟨hp, hq⟩ := h item (List.mem_cons_self _ _)
    obtain ⟨p, hp2⟩ := Option.isSome_iff_exists.mp hp
    obtain ⟨q, hq2⟩ := Option.isSome_iff_exists.mp hq
    simp only [calcTotalLoopA, hp2, hq2]
    rw [ih (fun i hi => h i (List.mem_cons_of_mem _ hi))]
    congr 1
    simp only [List.map_cons, List.sum_cons, itemVal, hp2, hq2, Option.getD_some]
    ring

end Lemmas

/-- C1: for every price, `calculate_discount` returns `price * 0.15` when the
price exceeds 100, `price * 0.10` when it lies in (50, 100], and
`price * 0.05` when it is at most 50. -/
theorem calculate_discount_spec (price : ℚ) :
    (price > 100 → calculate_discount price = price * 0.15) ∧
    (50 < price ∧ price ≤ 100 → calculate_discount price = price * 0.10) ∧
    (price ≤ 50 → calculate_discount price = price * 0.05) := by
  refine ⟨fun h => ?_, fun h => ?_, fun h => ?_⟩
  · simp only [calculate_discount, if_pos h]
  · simp only [calculate_discount, if_neg (not_lt.mpr h.2), if_pos h.1]
  · have h1 : ¬ price > 100 := not_lt.mpr (by linarith)
    have h2 : ¬ price > 50 := not_lt.mpr h
    simp only [calculate_discount, if_neg h1, if_neg h2]

/-- Witness for C1 at the prices 120, 80 and 30. -/
theorem calculate_discount_spec_witness :
    calculate_discount 120 = 120 * 0.15 ∧
    calculate_discount 80 = 80 * 0.10 ∧
    calculate_discount 30 = 30 * 0.05 :=
  ⟨(calculate_discount_spec 120).1 (by norm_num),
   (calculate_discount_spec 80).2.1 (by norm_num),
   (calculate_discount_spec 30).2.2 (by norm_num)⟩

/-- C2: `calculate_total_a` and `calculate_total_b` return the same value on
every item collection. -/
theorem calculate_total_a_eq_b (items : List (Dict ℚ)) :
    calculate_total_a items = calculate_total_b items :=
  calcTotalLoopA_eq_B items 0

/-- C4: `do_work x y z` returns `(x + y) * z / 2`. -/
theorem do_work_spec (x y z : ℚ) : do_work x y z = (x + y) * z / 2 := rfl

/-- C10: both total-calculation functions return 0 on the empty collection. -/
theorem calculate_total_empty :
    calculate_total_a [] = some 0 ∧ calculate_total_b [] = some 0 :=
  ⟨rfl, rfl⟩

/-- C3: when every item dict has the "price" and "quantity" keys, both
total-calculation functions return the sum over the list of
`item["price"] * item["quantity"]`. -/
theorem calculate_total_correct (items : List (Dict ℚ))
    (h : ∀ i ∈ items, hasTotalKeys i) :
    calculate_total_a items = some ((items.map itemVal).sum) ∧
    calculate_total_b items = some ((items.map itemVal).sum) := by
  have ha := calcTotalLoopA_sum items h 0
  rw [zero_add] at ha
  exact ⟨ha, (calcTotalLoopA_eq_B items 0).symm.trans ha⟩

/-- Witness for C3 on a one-item collection with price 3 and quantity 2. -/
theorem calculate_total_correct_witness :
    (∀ i ∈ [[("price", (3 : ℚ)), ("quantity", 2)]], hasTotalKeys i) ∧
    calculate_total_a [[("price", (3 : ℚ)), ("quantity", 2)]] =
      some (([[("price", (3 : ℚ)), ("quantity", 2)]].map itemVal).sum) :=
  ⟨by decide, (calculate_total_correct _ (by decide)).1⟩

/-- C5: every one of the 21 methods of `OrderManager` is a stub: on every
instance it returns `None` and leaves the instance state unchanged. -/
theorem orderManager_all_stubs (m : OrderManager) :
    m.create_order = (m, none) ∧ m.update_order = (m, none) ∧
    m.delete_order = (m, none) ∧ m.validate_order = (m, none) ∧
    m.calculate_total = (m, none) ∧ m.apply_discount = (m, none) ∧
    m.process_payment = (m, none) ∧ m.send_email = (m, none) ∧
    m.send_sms = (m, none) ∧ m.log_activity = (m, none) ∧
    m.generate_invoice = (m, none) ∧ m.print_receipt = (m, none) ∧
    m.update_inventory = (m, none) ∧ m.check_stock = (m, none) ∧
    m.calculate_shipping = (m, none) ∧ m.track_shipment = (m, none) ∧
    m.handle_returns = (m, none) ∧ m.process_refund = (m, none) ∧
    m.generate_report = (m, none) ∧ m.export_data = (m, none) ∧
    m.import_data = (m, none) :=
  ⟨rfl, rfl, rfl, rfl, rfl, rfl, rfl, rfl, rfl, rfl, rfl,
   rfl, rfl, rfl, rfl, rfl, rfl, rfl, rfl, rfl, rfl⟩

section MoreLemmas

/-- When every variation has a "price" key, the inner loop of `process_order`
succeeds. -/
lemma poVariationsLoop_some (vars : List (Dict ℚ))
    (h : ∀ v ∈ vars, (dictGet v "price").isSome = true) :
    ∀ out, (poVariationsLoop vars out).isSome = true := by
  induction vars with
  | nil => intro out; rfl
  | cons v rest ih =>
    intro out
    obtain ⟨p, hp⟩ := Option.isSome_iff_exists.mp (h v (List.mem_cons_self _ _))
    simp only [poVariationsLoop, hp]
    exact ih (fun w hw => h w (List.mem_cons_of_mem _ hw)) _

/-- When every order item is well formed, the outer loop of `process_order`
succeeds. -/
lemma poItemsLoop_some (items : List (Dict (List (Dict ℚ))))
    (h : ∀ i ∈ items, wellFormedOrderItem i) :
    ∀ out, (poItemsLoop items out).isSome = true := by
  induction items with
  | nil => intro out; rfl
  | cons item rest ih =>
    intro out
    obtain ⟨vars, hv, hall⟩ := h item (List.mem_cons_self _ _)
    obtain ⟨out2, hout2⟩ :=
      Option.isSome_iff_exists.mp (poVariationsLoop_some vars hall out)
    simp only [poItemsLoop, hv, hout2]
    exact ih (fun i hi => h i (List.mem_cons_of_mem _ hi)) out2

end MoreLemmas

/-- C6: no function validates its input or handles an error; on well-formed
input none of them raises. Formally: on item collections whose dicts carry
the accessed keys, both total-calculation functions and `process_order`
return a value rather than the `none` that models an uncaught exception
(`calculate_discount` and `do_work` are total functions of their numeric
arguments by type, so they cannot raise at all). -/
theorem no_error_no_validation :
    (∀ items, (∀ i ∈ items, hasTotalKeys i) →
      (calculate_total_a items).isSome = true ∧
      (calculate_total_b items).isSome = true) ∧
    (∀ (order_id customer_name email phone address : Bool)
       (city state zip_code : String)
       (items : List (Dict (List (Dict ℚ))))
       (payment_method shipping_method : String),
      (∀ i ∈ items, wellFormedOrderItem i) →
      (process_order order_id customer_name email phone address city state
        zip_code items payment_method shipping_method).isSome = true) := by
  constructor
  · intro items h
    have ha := calcTotalLoopA_sum items h 0
    have hab := calcTotalLoopA_eq_B items 0
    constructor
    · show (calcTotalLoopA items 0).isSome = true
      rw [ha]; rfl
    · show (calcTotalLoopB items 0).isSome = true
      rw [← hab, ha]; rfl
  · intro oid cn em ph ad ci st zc items pm sm h
    simp only [process_order]
    split_ifs with h1 h2 h3 h4 h5
    · obtain ⟨o2, ho2⟩ := Option.isSome_iff_exists.mp
        (poItemsLoop_some items h ["Processing order..."])
      rw [ho2]
      rfl
    · rfl
    · rfl
    · rfl
    · rfl
    · rfl

/-- Witness for C6 on the empty item collection. -/
theorem no_error_no_validation_witness :
    ((∀ i ∈ ([] : List (Dict ℚ)), hasTotalKeys i) ∧
      (calculate_total_a []).isSome = true) ∧
    ((∀ i ∈ ([] : List (Dict (List (Dict ℚ)))), wellFormedOrderItem i) ∧
      (process_order true true true true true "" "" "" [] "" "").isSome = true) :=
  ⟨⟨by simp, (no_error_no_validation.1 [] (by simp)).1⟩,
   ⟨by simp, no_error_no_validation.2 true true true true true "" "" "" [] "" ""
     (by simp)⟩⟩

/-- C8: whenever `process_order` terminates normally (returns a value), the
returned Boolean is `True`, for every combination of arguments. -/
theorem process_order_returns_true
    (order_id customer_name email phone address : Bool)
    (city state zip_code : String)
    (items : List (Dict (List (Dict ℚ))))
    (payment_method shipping_method : String) (r : List String × Bool)
    (h : process_order order_id customer_name email phone address city state
      zip_code items payment_method shipping_method = some r) :
    r.2 = true := by
  simp only [process_order] at h
  split at h
  · exact absurd h (by simp)
  · obtain rfl := (Option.some.inj h).symm
    rfl

/-- Witness for C8: a run with all flags falsy and no items returns `True`. -/
theorem process_order_returns_true_witness :
    process_order false false false false false "" "" "" [] "" "" =
      some (["Processing order..."], true) ∧
    (["Processing order..."], true).2 = true :=
  ⟨rfl, process_order_returns_true false false false false false "" "" "" [] "" ""
    (["Processing order..."], true) rfl⟩

/-- C9: `calculate_discount` is monotone non-decreasing on non-negative
prices, and on non-negative prices its value lies between 0 and
`0.15 * price`. -/
theorem calculate_discount_monotone_bounded :
    (∀ p1 p2 : ℚ, 0 ≤ p1 → p1 ≤ p2 →
      calculate_discount p1 ≤ calculate_discount p2) ∧
    (∀ p : ℚ, 0 ≤ p →
      0 ≤ calculate_discount p ∧ calculate_discount p ≤ 0.15 * p) := by
  constructor
  · intro p1 p2 h0 h12
    simp only [calculate_discount]
    split_ifs <;> norm_num <;> linarith
  · intro p hp
    simp only [calculate_discount]
    split_ifs <;> constructor <;> norm_num <;> linarith

/-- Witness for C9 at the prices 10 and 200 for monotonicity and 80 for the
bounds. -/
theorem calculate_discount_monotone_bounded_witness :
    ((0 : ℚ) ≤ 10 ∧ (10 : ℚ) ≤ 200 ∧
      calculate_discount 10 ≤ calculate_discount 200) ∧
    ((0 : ℚ) ≤ 80 ∧
      (0 ≤ calculate_discount 80 ∧ calculate_discount 80 ≤ 0.15 * 80)) :=
  ⟨⟨by norm_num, by norm_num,
    calculate_discount_monotone_bounded.1 10 200 (by norm_num) (by norm_num)⟩,
   ⟨by norm_num,
    calculate_discount_monotone_bounded.2 80 (by norm_num)⟩⟩
